import Mathlib

/-! m-lab/autoload: the Pub/Sub push handler and its startup.

A shallow embedding of `cmd/autoload/main.go`.

* Go strings and `error` values are Lean strings (an error is represented by
  the text `%v` prints for it); a byte slice is a list of byte values.
* The process-wide state the program touches (operator log, BigQuery service,
  registered routes, listen address, responses, exit status) is one record,
  `World`, passed through every operation.
* Code the repository imports but does not contain (`encoding/json`, the
  BigQuery service behind `cloud.google.com/go/bigquery`, the network, the
  command line) appears as parameters, so every theorem holds for every
  behaviour of those collaborators.
-/

namespace Autoload

/-! ## Basic data -/

/-- A Go `error` value, represented by its message. -/
abbrev Error := String

/-- A Go `[]byte`. -/
abbrev Bytes := List Nat

/-- ASCII text as the bytes that encode it. -/
def bytesOf (s : String) : Bytes := s.toList.map Char.toNat

/-- A Go `map[string]string`; `none` is the nil map. -/
abbrev StringMap := Option (List (String × String))

/-- Index expression `m[k]` on a `map[string]string`: the zero value `""` when the
key is absent, also on the nil map. -/
def StringMap.index (m : StringMap) (k : String) : String :=
  match m with
  | none => ""
  | some kvs => (kvs.lookup k).getD ""

/-- Formatting of an `error` operand by the verb `%v`. -/
def fmtV : Option Error → String
  | some e => e
  | none => "<nil>"

/-- The anonymous struct type of the field `Message` of `PubSubMessage`. -/
structure Message where
  Data : Bytes
  ID : String
  Attributes : StringMap
  deriving DecidableEq, Repr

/-- Go type `PubSubMessage` (lines 54-61). -/
structure PubSubMessage where
  Message : Message
  Subscription : String
  deriving DecidableEq, Repr

/-- The zero value of `PubSubMessage`, as declared by `var m PubSubMessage`. -/
def PubSubMessage.zero : PubSubMessage :=
  { Message := { Data := [], ID := "", Attributes := none }, Subscription := "" }

/-! ## The BigQuery client library (types and constants the handler uses) -/

/-- Library constant `bigquery.JSON`. -/
def JSON : String := "NEWLINE_DELIMITED_JSON"

/-- Library constant `bigquery.WriteAppend`. -/
def WriteAppend : String := "WRITE_APPEND"

/-- Library constant `bigquery.WriteTruncate`. -/
def WriteTruncate : String := "WRITE_TRUNCATE"

/-- Library constant `bigquery.WriteEmpty`. -/
def WriteEmpty : String := "WRITE_EMPTY"

/-- Library type `bigquery.GCSReference`, the fields in use. -/
structure GCSReference where
  URIs : List String
  SourceFormat : String
  deriving DecidableEq, Repr

/-- Library function `bigquery.NewGCSReference(uri ...string)`: the URIs are stored as
given. -/
def NewGCSReference (uris : List String) : GCSReference :=
  { URIs := uris, SourceFormat := "" }

/-- Library type `bigquery.Client`: the project the client is bound to. -/
structure Client where
  projectID : String
  deriving DecidableEq, Repr

/-- Library type `bigquery.Dataset`. -/
structure Dataset where
  ProjectID : String
  DatasetID : String
  deriving DecidableEq, Repr

/-- Library type `bigquery.Table`. -/
structure Table where
  ProjectID : String
  DatasetID : String
  TableID : String
  deriving DecidableEq, Repr

/-- Library type `bigquery.Loader`, the fields in use. -/
structure Loader where
  Src : GCSReference
  Dst : Table
  SchemaUpdateOptions : List String
  WriteDisposition : String
  deriving DecidableEq, Repr

/-- Library method `(*Client).Dataset`. -/
def Client.Dataset (c : Client) (id : String) : Dataset :=
  { ProjectID := c.projectID, DatasetID := id }

/-- Library method `(*Dataset).Table`. -/
def Dataset.Table (d : Dataset) (id : String) : Table :=
  { ProjectID := d.ProjectID, DatasetID := d.DatasetID, TableID := id }

/-- Library method `(*Table).LoaderFrom`: every option starts at its zero value. -/
def Table.LoaderFrom (t : Table) (src : GCSReference) : Loader :=
  { Src := src, Dst := t, SchemaUpdateOptions := [], WriteDisposition := "" }

/-- Library type `bigquery.Job`: a handle on a submitted job. -/
structure Job where
  jobID : String
  deriving DecidableEq, Repr

/-- Library type `bigquery.JobStatus`: the terminal status and the error it carries. -/
structure JobStatus where
  err : Option Error
  deriving DecidableEq, Repr

/-- Library method `(*JobStatus).Err`: a field read, without contact to the service. -/
def JobStatus.Err (s : JobStatus) : Option Error := s.err

/-- The BigQuery service behind the client, as a state machine over an arbitrary
state `σ`: what `loader.Run` and `job.Wait` answer, and how the service moves on. -/
structure Engine (σ : Type) where
  Run : σ → Loader → σ × Except Error Job
  Wait : σ → Job → σ × Except Error JobStatus

/-- One step of the handler against the engine: a load submitted, a job waited for, a
terminal status inspected. -/
inductive Call where
  | Run (l : Loader)
  | Wait (j : Job)
  | Status (s : JobStatus)
  deriving DecidableEq, Repr

/-- The three kinds of engine step. -/
inductive Step where
  | submit
  | wait
  | status
  deriving DecidableEq, Repr

/-- Kind of a recorded step. -/
def Call.kind : Call → Step
  | .Run _ => .submit
  | .Wait _ => .wait
  | .Status _ => .status

/-- The load requests among recorded steps, in order of submission. -/
def submissions : List Call → List Loader
  | [] => []
  | .Run l :: cs => l :: submissions cs
  | _ :: cs => submissions cs

/-! ## HTTP -/

/-- Constant `http.StatusOK`. -/
def StatusOK : Nat := 200

/-- Constant `http.StatusBadRequest`. -/
def StatusBadRequest : Nat := 400

/-- Constant `http.StatusInternalServerError`. -/
def StatusInternalServerError : Nat := 500

/-- What a handler has written to its `http.ResponseWriter`: the header map, every
`WriteHeader` call in order, and the body bytes. -/
structure ResponseWriter where
  header : List (String × String)
  codes : List Nat
  body : String
  deriving DecidableEq, Repr

/-- A response writer no handler has touched yet. -/
def ResponseWriter.fresh : ResponseWriter := { header := [], codes := [], body := "" }

/-- Method `w.WriteHeader(code)`. -/
def ResponseWriter.WriteHeader (w : ResponseWriter) (code : Nat) : ResponseWriter :=
  { w with codes := w.codes ++ [code] }

/-- Method `w.Header().Set(k, v)`. -/
def ResponseWriter.Set (w : ResponseWriter) (k v : String) : ResponseWriter :=
  { w with header := (w.header.filter (fun kv => kv.1 != k)) ++ [(k, v)] }

/-- Method `w.Write`, here of text. -/
def ResponseWriter.Write (w : ResponseWriter) (s : String) : ResponseWriter :=
  { w with body := w.body ++ s }

/-- Library function `http.Error(w, error, code)`: two headers, the status code, then
the text and a newline. -/
def httpError (w : ResponseWriter) (error : String) (code : Nat) : ResponseWriter :=
  (((w.Set "Content-Type" "text/plain; charset=utf-8").Set
    "X-Content-Type-Options" "nosniff").WriteHeader code).Write (error ++ "\n")

/-- The request body `r.Body` as `ioutil.ReadAll` sees it: the bytes it yields and the
error, if any, that ends the read. -/
structure Reader where
  data : Bytes
  err : Option Error
  deriving DecidableEq, Repr

/-- An `http.Request`, the part in use. -/
structure Request where
  Body : Reader
  deriving DecidableEq, Repr

/-- Library function `ioutil.ReadAll`. -/
def ReadAll (r : Reader) : Bytes × Option Error := (r.data, r.err)

/-- Behaviour of `json.Unmarshal(body, &m)` on a zero-valued `m`: the value left in `m`
(fields decoded before or after a failing one stay set) and the error returned. -/
abbrev Unmarshal := Bytes → PubSubMessage × Option Error

/-! ## Process state -/

/-- Package-level variables of `main.go` (lines 15-21). -/
structure Globals where
  project : String
  dataset : String
  table : String
  client : Client
  deriving DecidableEq, Repr

/-- Everything outside the handler's local variables. -/
structure World (σ : Type) where
  /-- state of the BigQuery service -/
  svc : σ
  /-- lines written through package `log`, without their time stamp -/
  log : List String
  /-- engine steps performed so far -/
  calls : List Call
  /-- patterns registered with `http.HandleFunc` -/
  handlers : List String
  /-- addresses passed to `http.ListenAndServe` -/
  listening : List String
  /-- response of every request served so far -/
  served : List ResponseWriter
  /-- status passed to `os.Exit`, `none` while the process is alive -/
  exit : Option Nat

/-- Library function `log.Printf`, given the formatted line. -/
def World.Printf {σ : Type} (x : World σ) (line : String) : World σ :=
  { x with log := x.log ++ [line] }

/-- Library function `log.Fatal(err)`: print, then `os.Exit(1)`. -/
def World.Fatal {σ : Type} (x : World σ) (err : Error) : World σ :=
  { x with log := x.log ++ [err], exit := some 1 }

/-- Method `loader.Run(ctx)` against the engine. -/
def World.Run {σ : Type} (eng : Engine σ) (x : World σ) (l : Loader) :
    World σ × Except Error Job :=
  ({ x with svc := (eng.Run x.svc l).1, calls := x.calls ++ [Call.Run l] }, (eng.Run x.svc l).2)

/-- Method `job.Wait(ctx)` against the engine. -/
def World.Wait {σ : Type} (eng : Engine σ) (x : World σ) (j : Job) :
    World σ × Except Error JobStatus :=
  ({ x with svc := (eng.Wait x.svc j).1, calls := x.calls ++ [Call.Wait j] }, (eng.Wait x.svc j).2)

/-- The handler turns to the terminal status that `job.Wait` returned (line 104). The
status is a value the handler already holds: `status.Err()` reads a field of it, on
line 104 for the test and on line 105 for the text of the log line, and neither read
reaches the service. The inspection is recorded as one step. -/
def World.Inspect {σ : Type} (x : World σ) (s : JobStatus) : World σ :=
  { x with calls := x.calls ++ [Call.Status s] }

/-! ## The handler -/

/-- Lines 84-88: the load request for one object. -/
def newLoader (g : Globals) (bucket object : String) : Loader :=
  let gcsRef := NewGCSReference ["gs://" ++ bucket ++ "/" ++ object]
  let gcsRef := { gcsRef with SourceFormat := JSON }
  let loader := ((g.client.Dataset g.dataset).Table g.table).LoaderFrom gcsRef
  let loader := { loader with
    SchemaUpdateOptions := ["ALLOW_FIELD_ADDITION", "ALLOW_FIELD_RELAXATION"] }
  { loader with WriteDisposition := WriteAppend }

/-- Lines 84-108, the case `"OBJECT_FINALIZE"` of the switch. The flag in the result
tells whether the handler returned from inside the case. -/
def caseObjectFinalize {σ : Type} (eng : Engine σ) (g : Globals) (x : World σ)
    (w : ResponseWriter) (bucket object : String) : World σ × ResponseWriter × Bool :=
  let loader := newLoader g bucket object
  match x.Run eng loader with
  | (x, .error err) =>
    (x.Printf ("loader.Run: " ++ fmtV (some err)), w.WriteHeader StatusInternalServerError, true)
  | (x, .ok job) =>
    match x.Wait eng job with
    | (x, .error err) =>
      (x.Printf ("job.Wait: " ++ fmtV (some err)), w.WriteHeader StatusInternalServerError, true)
    | (x, .ok status) =>
      let x := x.Inspect status
      if status.Err ≠ none then
        (x.Printf ("status.Err(): " ++ fmtV status.Err),
          w.WriteHeader StatusInternalServerError, true)
      else
        (x, w, false)

/-- Lines 64-112: `PubSub` receives and processes a Pub/Sub push message. -/
def PubSub {σ : Type} (u : Unmarshal) (eng : Engine σ) (g : Globals) (x : World σ)
    (w : ResponseWriter) (r : Request) : World σ × ResponseWriter :=
  match ReadAll r.Body with
  | (_, some err) =>
    (x.Printf ("ioutil.ReadAll: " ++ fmtV (some err)), httpError w "Bad Request" StatusBadRequest)
  | (body, none) =>
    match u body with
    | (_, some err) =>
      (x.Printf ("json.Unmarshal: " ++ fmtV (some err)),
        httpError w "Bad Request" StatusBadRequest)
    | (m, none) =>
      let bucket := m.Message.Attributes.index "bucketId"
      let object := m.Message.Attributes.index "objectId"
      let event := m.Message.Attributes.index "eventType"
      if event = "OBJECT_FINALIZE" then
        match caseObjectFinalize eng g x w bucket object with
        | (x, w, true) => (x, w)
        | (x, w, false) => (x, w.WriteHeader StatusOK)
      else
        (x, w.WriteHeader StatusOK)

/-! ## Startup -/

/-- Values of the flags `-project`, `-dataset`, `-table` (lines 23-27). -/
structure Flags where
  project : String
  dataset : String
  table : String
  deriving DecidableEq, Repr

/-- Surroundings of one run of the program. -/
structure Env (σ : Type) where
  /-- outcome of `flag.Parse()`: the flag values, or the exit status with which package
  `flag` ends the process on a command line it rejects -/
  flags : Except Nat Flags
  /-- whether constructing a client for a project fails -/
  dial : String → Option Error
  /-- process environment variables -/
  environ : List (String × String)
  /-- behaviour of `json.Unmarshal` -/
  unmarshal : Unmarshal
  /-- behaviour of the BigQuery service -/
  engine : Engine σ
  /-- state of the BigQuery service when the process starts -/
  svc : σ
  /-- behaviour of `http.ListenAndServe` at an address: the requests that arrive and
  are served, then the error it returns, `none` when it never returns -/
  net : String → List Request × Option Error

/-- Library function `bigquery.NewClient(ctx, projectID)`. -/
def NewClient (dial : String → Option Error) (projectID : String) : Except Error Client :=
  match dial projectID with
  | some err => .error err
  | none => .ok { projectID := projectID }

/-- Library function `os.Getenv`: `""` for a variable that is not set. -/
def Getenv (environ : List (String × String)) (key : String) : String :=
  (environ.lookup key).getD ""

/-- Library function `http.HandleFunc(pattern, PubSub)`. -/
def World.HandleFunc {σ : Type} (x : World σ) (pattern : String) : World σ :=
  { x with handlers := x.handlers ++ [pattern] }

/-- The server loop: each arriving request is handed to `PubSub` with a response writer
of its own. Requests are taken one after the other. -/
def serve {σ : Type} (u : Unmarshal) (eng : Engine σ) (g : Globals) :
    World σ → List Request → World σ
  | x, [] => x
  | x, r :: rs =>
    let xw := PubSub u eng g x ResponseWriter.fresh r
    serve u eng g { xw.1 with served := xw.1.served ++ [xw.2] } rs

/-- Library function `http.ListenAndServe(addr, nil)` with `PubSub` registered for
every path. -/
def ListenAndServe {σ : Type} (env : Env σ) (g : Globals) (x : World σ) (addr : String) :
    World σ × Option Error :=
  (serve env.unmarshal env.engine g { x with listening := x.listening ++ [addr] }
    (env.net addr).1, (env.net addr).2)

/-- The process before `main` has run. -/
def World.start {σ : Type} (s : σ) : World σ :=
  { svc := s, log := [], calls := [], handlers := [], listening := [], served := [],
    exit := none }

/-- The package-level variables once `flag.Parse` and `bigquery.NewClient` have
succeeded (lines 30-34). -/
def Globals.ofFlags (f : Flags) (client : Client) : Globals :=
  { project := f.project, dataset := f.dataset, table := f.table, client := client }

/-- The port chosen on lines 41-45. -/
def choosePort (environ : List (String × String)) : String :=
  let port := Getenv environ "PORT"
  if port = "" then "8080" else port

/-- Lines 29-52: `main`. -/
def main {σ : Type} (env : Env σ) : World σ :=
  let x := World.start env.svc
  match env.flags with
  | .error code => { x with exit := some code }
  | .ok f =>
    match NewClient env.dial f.project with
    | .error err => x.Fatal err
    | .ok client =>
      let g := Globals.ofFlags f client
      let x := x.HandleFunc "/"
      let port := choosePort env.environ
      let x := if Getenv env.environ "PORT" = "" then
        x.Printf ("Defaulting to port " ++ port) else x
      let x := x.Printf ("Listening on port " ++ port)
      match ListenAndServe env g x (":" ++ port) with
      | (x, some err) => x.Fatal err
      | (x, none) => x

/-! ## Sample collaborators, for evaluating the definitions on concrete inputs -/

/-- Body of a finalize notification for object `o.json` of bucket `b`. -/
def finalizeBody : Bytes := bytesOf
  "\x7b\"message\":\x7b\"id\":\"1\",\"attributes\":\x7b\"bucketId\":\"b\",\"objectId\":\"o.json\",\"eventType\":\"OBJECT_FINALIZE\"\x7d\x7d\x7d"

/-- Body of a delete notification for the same object. -/
def deleteBody : Bytes := bytesOf
  "\x7b\"message\":\x7b\"id\":\"1\",\"attributes\":\x7b\"bucketId\":\"b\",\"objectId\":\"o.json\",\"eventType\":\"OBJECT_DELETE\"\x7d\x7d\x7d"

/-- Body of a finalize notification whose `data` is not base64. -/
def badDataBody : Bytes := bytesOf
  "\x7b\"message\":\x7b\"data\":\"!\",\"attributes\":\x7b\"eventType\":\"OBJECT_FINALIZE\"\x7d\x7d\x7d"

/-- Body of a finalize notification that names neither bucket nor object. -/
def bareBody : Bytes := bytesOf
  "\x7b\"message\":\x7b\"id\":\"1\",\"attributes\":\x7b\"eventType\":\"OBJECT_FINALIZE\"\x7d\x7d\x7d"

/-- Envelope with the given attributes and message id `1`. -/
def envelope (attrs : StringMap) : PubSubMessage :=
  { Message := { Data := [], ID := "1", Attributes := attrs }, Subscription := "" }

/-- The envelope the sample decoder yields for `finalizeBody`. -/
def finalizeEnvelope : PubSubMessage :=
  envelope (some [("bucketId", "b"), ("objectId", "o.json"), ("eventType", "OBJECT_FINALIZE")])

/-- The envelope the sample decoder yields for `deleteBody`. -/
def deleteEnvelope : PubSubMessage :=
  envelope (some [("bucketId", "b"), ("objectId", "o.json"), ("eventType", "OBJECT_DELETE")])

/-- The envelope the sample decoder yields for `bareBody`. -/
def bareEnvelope : PubSubMessage :=
  envelope (some [("eventType", "OBJECT_FINALIZE")])

/-- A decoder that knows the sample bodies and the empty object, and rejects every
other body as malformed. -/
def sampleUnmarshal : Unmarshal := fun body =>
  if body = finalizeBody then (finalizeEnvelope, none)
  else if body = deleteBody then (deleteEnvelope, none)
  else if body = bareBody then (bareEnvelope, none)
  else if body = bytesOf "\x7b\x7d" then
    (PubSubMessage.zero, none)
  else if body = badDataBody then
    ({ Message := { Data := [], ID := "", Attributes := some [("eventType", "OBJECT_FINALIZE")] },
       Subscription := "" }, some "illegal base64 data at input byte 0")
  else
    (PubSubMessage.zero, some "invalid character")

/-- Behaviour of a sample engine on one job: whether submission, wait and the job
itself fail. -/
structure Script where
  run : Option Error
  wait : Option Error
  job : Option Error
  deriving DecidableEq, Repr

/-- A sample engine. Its state is the number of jobs submitted so far and the scripts
of the jobs still to come; a job without a script succeeds. -/
def sampleEngine : Engine (Nat × List Script) where
  Run s _ :=
    match (s.2.headD ⟨none, none, none⟩).run with
    | some e => ((s.1 + 1, s.2.tail), .error e)
    | none => ((s.1 + 1, s.2), .ok { jobID := toString s.1 })
  Wait s _ :=
    match (s.2.headD ⟨none, none, none⟩).wait with
    | some e => ((s.1, s.2.tail), .error e)
    | none => ((s.1, s.2.tail), .ok { err := (s.2.headD ⟨none, none, none⟩).job })

/-- A request with the given body, read without error. -/
def requestOf (body : Bytes) : Request := { Body := { data := body, err := none } }

/-- Globals as `main` sets them for destination `(proj, ds, tbl)`. -/
def sampleGlobals : Globals :=
  { project := "proj", dataset := "ds", table := "tbl", client := { projectID := "proj" } }

/-- An engine that accepts every load: jobs are numbered as they come and all
succeed. -/
def acceptingEngine : Engine Nat where
  Run s _ := (s + 1, .ok { jobID := toString s })
  Wait s _ := (s, .ok { err := none })

/-- A run in which the client is constructed and the listener cannot bind its port. -/
def bindFailsEnv : Env Nat :=
  { flags := .ok { project := "proj", dataset := "ds", table := "tbl" }
    dial := fun _ => none
    environ := []
    unmarshal := sampleUnmarshal
    engine := acceptingEngine
    svc := 0
    net := fun _ => ([], some "listen tcp :8080: bind: address already in use") }

/-- A run with `PORT=9090` that serves one finalize notification and keeps running. -/
def servingEnv : Env Nat :=
  { flags := .ok { project := "proj", dataset := "ds", table := "tbl" }
    dial := fun _ => none
    environ := [("PORT", "9090")]
    unmarshal := sampleUnmarshal
    engine := acceptingEngine
    svc := 0
    net := fun _ => ([requestOf finalizeBody], none) }

/-- A run whose command line package `flag` rejects, ending the process with
status 2. -/
def badFlagsEnv : Env Nat :=
  { flags := .error 2
    dial := fun _ => none
    environ := [("PORT", "9090")]
    unmarshal := sampleUnmarshal
    engine := acceptingEngine
    svc := 0
    net := fun _ => ([requestOf finalizeBody], none) }

/-- A run in which no client can be constructed. -/
def noClientEnv : Env Nat :=
  { flags := .ok { project := "proj", dataset := "ds", table := "tbl" }
    dial := fun _ => some "bigquery: constructing client: could not find default credentials"
    environ := []
    unmarshal := sampleUnmarshal
    engine := acceptingEngine
    svc := 0
    net := fun _ => ([requestOf finalizeBody], none) }

/-! ## Vocabulary of the statements -/

/-- The engine steps performed between world `x` and the later world `y`. -/
def performed {σ : Type} (x y : World σ) : List Call := y.calls.drop x.calls.length

/-- The world `x` after the service has moved to state `s`, the engine steps `cs` have
been performed and the lines `ls` have been logged. -/
def World.after {σ : Type} (x : World σ) (s : σ) (cs : List Call) (ls : List String) :
    World σ :=
  { x with svc := s, calls := x.calls ++ cs, log := x.log ++ ls }

/-- The load request the handler builds from a decoded envelope (lines 79-88). -/
def loaderOf (g : Globals) (m : PubSubMessage) : Loader :=
  newLoader g (m.Message.Attributes.index "bucketId") (m.Message.Attributes.index "objectId")

/-- The first error a load meets at the engine in service state `s`, under the name
the handler logs it with: from submission, from the wait, or carried by the terminal
status. -/
def loadError {σ : Type} (eng : Engine σ) (s : σ) (l : Loader) : Option (String × Error) :=
  match eng.Run s l with
  | (_, .error e) => some ("loader.Run", e)
  | (s1, .ok job) =>
    match eng.Wait s1 job with
    | (_, .error e) => some ("job.Wait", e)
    | (_, .ok status) => status.err.map (fun e => ("status.Err()", e))

/-- Whether a load fails at the engine in service state `s`: submission fails, or the
wait fails, or the terminal status carries an error. -/
def loadFails {σ : Type} (eng : Engine σ) (s : σ) (l : Loader) : Bool :=
  (loadError eng s l).isSome

/-- The first error a run of the handler meets, if any, under the name the handler
logs it with. -/
def failureOf {σ : Type} (u : Unmarshal) (eng : Engine σ) (g : Globals) (x : World σ)
    (r : Request) : Option (String × Error) :=
  match r.Body.err with
  | some e => some ("ioutil.ReadAll", e)
  | none =>
    match (u r.Body.data).2 with
    | some e => some ("json.Unmarshal", e)
    | none =>
      if (u r.Body.data).1.Message.Attributes.index "eventType" = "OBJECT_FINALIZE" then
        loadError eng x.svc (loaderOf g (u r.Body.data).1)
      else none

/-! ## The handler, case by case -/

theorem PubSub_readErr {σ : Type} (u : Unmarshal) (eng : Engine σ) (g : Globals)
    (x : World σ) (w : ResponseWriter) (r : Request) (e : Error)
    (hr : r.Body.err = some e) :
    PubSub u eng g x w r =
      (x.Printf ("ioutil.ReadAll: " ++ e), httpError w "Bad Request" StatusBadRequest) := by
  simp [PubSub, ReadAll, hr, fmtV]

theorem PubSub_decodeErr {σ : Type} (u : Unmarshal) (eng : Engine σ) (g : Globals)
    (x : World σ) (w : ResponseWriter) (r : Request) (e : Error)
    (hr : r.Body.err = none) (hd : (u r.Body.data).2 = some e) :
    PubSub u eng g x w r =
      (x.Printf ("json.Unmarshal: " ++ e), httpError w "Bad Request" StatusBadRequest) := by
  rcases hu : u r.Body.data with ⟨m, _ | e1⟩
  · simp [hu] at hd
  · simp [hu] at hd
    simp [PubSub, ReadAll, hr, hu, fmtV, hd]

theorem PubSub_skip {σ : Type} (u : Unmarshal) (eng : Engine σ) (g : Globals)
    (x : World σ) (w : ResponseWriter) (r : Request) (m : PubSubMessage)
    (hr : r.Body.err = none) (hd : u r.Body.data = (m, none))
    (hev : m.Message.Attributes.index "eventType" ≠ "OBJECT_FINALIZE") :
    PubSub u eng g x w r = (x, w.WriteHeader StatusOK) := by
  simp [PubSub, ReadAll, hr, hd, hev]

theorem PubSub_finalize {σ : Type} (u : Unmarshal) (eng : Engine σ) (g : Globals)
    (x : World σ) (w : ResponseWriter) (r : Request) (m : PubSubMessage)
    (hr : r.Body.err = none) (hd : u r.Body.data = (m, none))
    (hev : m.Message.Attributes.index "eventType" = "OBJECT_FINALIZE") :
    PubSub u eng g x w r =
      match caseObjectFinalize eng g x w (m.Message.Attributes.index "bucketId")
          (m.Message.Attributes.index "objectId") with
      | (x, w, true) => (x, w)
      | (x, w, false) => (x, w.WriteHeader StatusOK) := by
  simp [PubSub, ReadAll, hr, hd, hev]

theorem case_runErr {σ : Type} (eng : Engine σ) (g : Globals) (x : World σ)
    (w : ResponseWriter) (b o : String) (e : Error)
    (h1 : (eng.Run x.svc (newLoader g b o)).2 = .error e) :
    caseObjectFinalize eng g x w b o =
      (x.after (eng.Run x.svc (newLoader g b o)).1 [Call.Run (newLoader g b o)]
          ["loader.Run: " ++ e],
        w.WriteHeader StatusInternalServerError, true) := by
  simp [caseObjectFinalize, World.Run, h1, World.Printf, fmtV, World.after]

theorem case_waitErr {σ : Type} (eng : Engine σ) (g : Globals) (x : World σ)
    (w : ResponseWriter) (b o : String) (j : Job) (e : Error)
    (h1 : (eng.Run x.svc (newLoader g b o)).2 = .ok j)
    (h2 : (eng.Wait (eng.Run x.svc (newLoader g b o)).1 j).2 = .error e) :
    caseObjectFinalize eng g x w b o =
      (x.after (eng.Wait (eng.Run x.svc (newLoader g b o)).1 j).1
          [Call.Run (newLoader g b o), Call.Wait j] ["job.Wait: " ++ e],
        w.WriteHeader StatusInternalServerError, true) := by
  simp [caseObjectFinalize, World.Run, World.Wait, h1, h2, World.Printf, fmtV, World.after]

theorem case_jobErr {σ : Type} (eng : Engine σ) (g : Globals) (x : World σ)
    (w : ResponseWriter) (b o : String) (j : Job) (st : JobStatus) (e : Error)
    (h1 : (eng.Run x.svc (newLoader g b o)).2 = .ok j)
    (h2 : (eng.Wait (eng.Run x.svc (newLoader g b o)).1 j).2 = .ok st)
    (h3 : st.err = some e) :
    caseObjectFinalize eng g x w b o =
      (x.after (eng.Wait (eng.Run x.svc (newLoader g b o)).1 j).1
          [Call.Run (newLoader g b o), Call.Wait j, Call.Status st] ["status.Err(): " ++ e],
        w.WriteHeader StatusInternalServerError, true) := by
  simp [caseObjectFinalize, World.Run, World.Wait, World.Inspect, h1, h2, h3, World.Printf,
    fmtV, JobStatus.Err, World.after]

theorem case_ok {σ : Type} (eng : Engine σ) (g : Globals) (x : World σ)
    (w : ResponseWriter) (b o : String) (j : Job) (st : JobStatus)
    (h1 : (eng.Run x.svc (newLoader g b o)).2 = .ok j)
    (h2 : (eng.Wait (eng.Run x.svc (newLoader g b o)).1 j).2 = .ok st)
    (h3 : st.err = none) :
    caseObjectFinalize eng g x w b o =
      (x.after (eng.Wait (eng.Run x.svc (newLoader g b o)).1 j).1
          [Call.Run (newLoader g b o), Call.Wait j, Call.Status st] [],
        w, false) := by
  simp [caseObjectFinalize, World.Run, World.Wait, World.Inspect, h1, h2, h3, JobStatus.Err,
    World.after]

/-- The four ways a finalize notification can go, by what the engine answers. -/
theorem PubSub_finalize_cases {σ : Type} (u : Unmarshal) (eng : Engine σ) (g : Globals)
    (x : World σ) (w : ResponseWriter) (r : Request) (m : PubSubMessage)
    (hr : r.Body.err = none) (hd : u r.Body.data = (m, none))
    (hev : m.Message.Attributes.index "eventType" = "OBJECT_FINALIZE") :
    (∃ e, (eng.Run x.svc (loaderOf g m)).2 = .error e ∧
        loadError eng x.svc (loaderOf g m) = some ("loader.Run", e) ∧
        ∃ s, PubSub u eng g x w r =
          (x.after s [Call.Run (loaderOf g m)] ["loader.Run: " ++ e],
           w.WriteHeader StatusInternalServerError)) ∨
    (∃ j e, (eng.Run x.svc (loaderOf g m)).2 = .ok j ∧
        (eng.Wait (eng.Run x.svc (loaderOf g m)).1 j).2 = .error e ∧
        loadError eng x.svc (loaderOf g m) = some ("job.Wait", e) ∧
        ∃ s, PubSub u eng g x w r =
          (x.after s [Call.Run (loaderOf g m), Call.Wait j] ["job.Wait: " ++ e],
           w.WriteHeader StatusInternalServerError)) ∨
    (∃ j st e, (eng.Run x.svc (loaderOf g m)).2 = .ok j ∧
        (eng.Wait (eng.Run x.svc (loaderOf g m)).1 j).2 = .ok st ∧ st.err = some e ∧
        loadError eng x.svc (loaderOf g m) = some ("status.Err()", e) ∧
        ∃ s, PubSub u eng g x w r =
          (x.after s [Call.Run (loaderOf g m), Call.Wait j, Call.Status st]
            ["status.Err(): " ++ e],
           w.WriteHeader StatusInternalServerError)) ∨
    (∃ j st, (eng.Run x.svc (loaderOf g m)).2 = .ok j ∧
        (eng.Wait (eng.Run x.svc (loaderOf g m)).1 j).2 = .ok st ∧ st.err = none ∧
        loadError eng x.svc (loaderOf g m) = none ∧
        ∃ s, PubSub u eng g x w r =
          (x.after s [Call.Run (loaderOf g m), Call.Wait j, Call.Status st] [],
           w.WriteHeader StatusOK)) := by
  rw [PubSub_finalize u eng g x w r m hr hd hev]
  have hL : newLoader g (m.Message.Attributes.index "bucketId")
    (m.Message.Attributes.index "objectId") = loaderOf g m := rfl
  generalize loaderOf g m = L at hL ⊢
  rcases h1 : eng.Run x.svc L with ⟨s1, e | j⟩
  · left
    refine ⟨e, by simp, by simp [loadError, h1], s1, ?_⟩
    rw [← hL, case_runErr eng g x w _ _ e (by rw [hL, h1])]
    simp [hL, h1]
  · rcases h2 : eng.Wait s1 j with ⟨s2, e | st⟩
    · right; left
      refine ⟨j, e, by simp, by simp [h2], by simp [loadError, h1, h2], s2, ?_⟩
      rw [← hL, case_waitErr eng g x w _ _ j e (by rw [hL, h1]) (by rw [hL, h1]; simp [h2])]
      simp [hL, h1, h2]
    · rcases h3 : st.err with _ | e
      · right; right; right
        refine ⟨j, st, by simp, by simp [h2], h3, by simp [loadError, h1, h2, h3], s2, ?_⟩
        rw [← hL, case_ok eng g x w _ _ j st (by rw [hL, h1]) (by rw [hL, h1]; simp [h2]) h3]
        simp [hL, h1, h2]
      · right; right; left
        refine ⟨j, st, e, by simp, by simp [h2], h3, by simp [loadError, h1, h2, h3], s2, ?_⟩
        rw [← hL, case_jobErr eng g x w _ _ j st e (by rw [hL, h1])
          (by rw [hL, h1]; simp [h2]) h3]
        simp [hL, h1, h2]

theorem performed_after {σ : Type} (x : World σ) (s : σ) (cs : List Call)
    (ls : List String) : performed x (x.after s cs ls) = cs := by
  simp [performed, World.after]

theorem performed_self {σ : Type} (x : World σ) : performed x x = [] := by
  simp [performed]

/-- Every run of the handler is of one of four kinds. -/
theorem PubSub_summary {σ : Type} (u : Unmarshal) (eng : Engine σ) (g : Globals)
    (x : World σ) (w : ResponseWriter) (r : Request) :
    ((r.Body.err ≠ none ∨ (u r.Body.data).2 ≠ none) ∧
      ∃ tag e, failureOf u eng g x r = some (tag, e) ∧
        PubSub u eng g x w r =
          (x.after x.svc [] [tag ++ ": " ++ e], httpError w "Bad Request" StatusBadRequest)) ∨
    (r.Body.err = none ∧ (u r.Body.data).2 = none ∧
      (u r.Body.data).1.Message.Attributes.index "eventType" ≠ "OBJECT_FINALIZE" ∧
      failureOf u eng g x r = none ∧
      PubSub u eng g x w r = (x.after x.svc [] [], w.WriteHeader StatusOK)) ∨
    (r.Body.err = none ∧ (u r.Body.data).2 = none ∧
      (u r.Body.data).1.Message.Attributes.index "eventType" = "OBJECT_FINALIZE" ∧
      ∃ tag e s cs, loadError eng x.svc (loaderOf g (u r.Body.data).1) = some (tag, e) ∧
        failureOf u eng g x r = some (tag, e) ∧
        PubSub u eng g x w r =
          (x.after s cs [tag ++ ": " ++ e], w.WriteHeader StatusInternalServerError)) ∨
    (r.Body.err = none ∧ (u r.Body.data).2 = none ∧
      (u r.Body.data).1.Message.Attributes.index "eventType" = "OBJECT_FINALIZE" ∧
      loadError eng x.svc (loaderOf g (u r.Body.data).1) = none ∧
      failureOf u eng g x r = none ∧
      ∃ s cs, PubSub u eng g x w r = (x.after s cs [], w.WriteHeader StatusOK)) := by
  have hx : x.after x.svc [] [] = x := by simp [World.after]
  rcases hr : r.Body.err with _ | e
  · rcases hd2 : (u r.Body.data).2 with _ | e
    · have hd : u r.Body.data = ((u r.Body.data).1, none) := by rw [← hd2]
      by_cases hev :
          (u r.Body.data).1.Message.Attributes.index "eventType" = "OBJECT_FINALIZE"
      · right; right
        rcases PubSub_finalize_cases u eng g x w r _ hr hd hev with
          ⟨e, _, hl, s, h⟩ | ⟨j, e, _, _, hl, s, h⟩ | ⟨j, st, e, _, _, _, hl, s, h⟩ |
          ⟨j, st, _, _, _, hl, s, h⟩
        · exact Or.inl ⟨rfl, rfl, hev, _, e, s, _, hl, by simp [failureOf, hr, hd2, hev, hl], h⟩
        · exact Or.inl ⟨rfl, rfl, hev, _, e, s, _, hl, by simp [failureOf, hr, hd2, hev, hl], h⟩
        · exact Or.inl ⟨rfl, rfl, hev, _, e, s, _, hl, by simp [failureOf, hr, hd2, hev, hl], h⟩
        · exact Or.inr ⟨rfl, rfl, hev, hl, by simp [failureOf, hr, hd2, hev, hl], s, _, h⟩
      · right; left
        refine ⟨rfl, rfl, hev, by simp [failureOf, hr, hd2, hev], ?_⟩
        rw [PubSub_skip u eng g x w r _ hr hd hev, hx]
    · left
      refine ⟨by simp, "json.Unmarshal", e, by simp [failureOf, hr, hd2], ?_⟩
      rw [PubSub_decodeErr u eng g x w r e hr hd2]
      simp [World.after, World.Printf]
  · left
    refine ⟨by simp, "ioutil.ReadAll", e, by simp [failureOf, hr], ?_⟩
    rw [PubSub_readErr u eng g x w r e hr]
    simp [World.after, World.Printf]

/-- The handler changes nothing of the world but the service state, the recorded
engine steps and the log. -/
theorem PubSub_frame {σ : Type} (u : Unmarshal) (eng : Engine σ) (g : Globals)
    (x : World σ) (w : ResponseWriter) (r : Request) :
    ∃ s cs ls, (PubSub u eng g x w r).1 = x.after s cs ls := by
  rcases PubSub_summary u eng g x w r with
    ⟨_, tag, e, _, h⟩ | ⟨_, _, _, _, h⟩ | ⟨_, _, _, tag, e, s, cs, _, _, h⟩ |
    ⟨_, _, _, _, _, s, cs, h⟩ <;>
  exact ⟨_, _, _, by rw [h]⟩

theorem lookup_absent (k : String) (kvs : List (String × String))
    (hno : ∀ v, (k, v) ∉ kvs) : kvs.lookup k = none := by
  induction kvs with
  | nil => rfl
  | cons p ps ih =>
    obtain ⟨a, b⟩ := p
    have hne : k ≠ a := by
      intro h
      exact hno b (by simp [h])
    have hbeq : (k == a) = false := by simpa using hne
    rw [List.lookup_cons, hbeq]
    exact ih (fun v hv => hno v (List.mem_cons_of_mem _ hv))

/-- Against an engine that accepts every load, a finalize notification goes through
all three steps and is answered 200, from any world. -/
theorem PubSub_accepted {σ : Type} (u : Unmarshal) (eng : Engine σ) (g : Globals)
    (w : ResponseWriter) (r : Request) (m : PubSubMessage)
    (hr : r.Body.err = none) (hd : u r.Body.data = (m, none))
    (hev : m.Message.Attributes.index "eventType" = "OBJECT_FINALIZE")
    (hrun : ∀ s l, ∃ j, (eng.Run s l).2 = .ok j)
    (hwait : ∀ s j, ∃ st, (eng.Wait s j).2 = .ok st ∧ st.err = none) (y : World σ) :
    ∃ j st s, PubSub u eng g y w r =
      (y.after s [Call.Run (loaderOf g m), Call.Wait j, Call.Status st] [],
        w.WriteHeader StatusOK) := by
  rcases PubSub_finalize_cases u eng g y w r m hr hd hev with
    ⟨e0, a1, _, s, h⟩ | ⟨j0, e0, a1, a2, _, s, h⟩ | ⟨j0, st0, e0, a1, a2, a3, _, s, h⟩ |
    ⟨j0, st0, a1, a2, a3, _, s, h⟩
  · obtain ⟨j, hj⟩ := hrun y.svc (loaderOf g m)
    simp [a1] at hj
  · obtain ⟨st, hst, _⟩ := hwait (eng.Run y.svc (loaderOf g m)).1 j0
    simp [a2] at hst
  · obtain ⟨st, hst, hnone⟩ := hwait (eng.Run y.svc (loaderOf g m)).1 j0
    rw [a2] at hst
    cases hst
    simp [a3] at hnone
  · exact ⟨j0, st0, s, h⟩

/-- The response of a failing run is determined by its status code. -/
theorem response_of_code {σ : Type} (u : Unmarshal) (eng : Engine σ) (g : Globals)
    (x : World σ) (w : ResponseWriter) (r : Request) (c : Nat) (hc : c ≠ 200)
    (h : (PubSub u eng g x w r).2.codes = w.codes ++ [c]) :
    (PubSub u eng g x w r).2 =
      (if c = 400 then httpError w "Bad Request" StatusBadRequest
        else w.WriteHeader StatusInternalServerError) ∧
    ∃ tag e, failureOf u eng g x r = some (tag, e) ∧
      (PubSub u eng g x w r).1.log = x.log ++ [tag ++ ": " ++ e] := by
  rcases PubSub_summary u eng g x w r with
    ⟨_, tag, e, hf, hp⟩ | ⟨_, _, _, _, hp⟩ | ⟨_, _, _, tag, e, s, cs, _, hf, hp⟩ |
    ⟨_, _, _, _, _, s, cs, hp⟩
  · rw [hp] at h ⊢
    have h400 : c = 400 := by
      simpa [httpError, ResponseWriter.Write, ResponseWriter.WriteHeader,
        ResponseWriter.Set, StatusBadRequest] using h.symm
    exact ⟨by simp [h400], tag, e, hf, by simp [World.after]⟩
  · rw [hp] at h
    have h200 : c = 200 := by
      simpa [ResponseWriter.WriteHeader, StatusOK] using h.symm
    exact absurd h200 hc
  · rw [hp] at h ⊢
    have h500 : c = 500 := by
      simpa [ResponseWriter.WriteHeader, StatusInternalServerError] using h.symm
    exact ⟨by simp [h500], tag, e, hf, by simp [World.after]⟩
  · rw [hp] at h
    have h200 : c = 200 := by
      simpa [ResponseWriter.WriteHeader, StatusOK] using h.symm
    exact absurd h200 hc

/-- The server loop leaves exit status, routes and listen addresses alone, and records
one response for each request. -/
theorem serve_frame {σ : Type} (u : Unmarshal) (eng : Engine σ) (g : Globals)
    (rs : List Request) (x : World σ) :
    (serve u eng g x rs).exit = x.exit ∧ (serve u eng g x rs).handlers = x.handlers ∧
    (serve u eng g x rs).listening = x.listening ∧
    (serve u eng g x rs).served.length = x.served.length + rs.length := by
  induction rs generalizing x with
  | nil => simp [serve]
  | cons r rs ih =>
    obtain ⟨s, cs, ls, h⟩ := PubSub_frame u eng g x ResponseWriter.fresh r
    simp only [serve]
    obtain ⟨h1, h2, h3, h4⟩ := ih
      { (PubSub u eng g x ResponseWriter.fresh r).1 with
        served := (PubSub u eng g x ResponseWriter.fresh r).1.served ++
          [(PubSub u eng g x ResponseWriter.fresh r).2] }
    rw [h1, h2, h3, h4, h]
    simp [World.after]
    omega

theorem main_flagErr {σ : Type} (env : Env σ) (code : Nat) (hf : env.flags = .error code) :
    main env = { World.start env.svc with exit := some code } := by
  simp [main, hf]

theorem main_clientErr {σ : Type} (env : Env σ) (f : Flags) (e : Error)
    (hf : env.flags = .ok f) (hc : NewClient env.dial f.project = .error e) :
    main env = (World.start env.svc).Fatal e := by
  simp [main, hf, hc]

theorem main_serving {σ : Type} (env : Env σ) (f : Flags) (c : Client)
    (hf : env.flags = .ok f) (hc : NewClient env.dial f.project = .ok c) :
    ∃ x : World σ, x.exit = none ∧ x.handlers = ["/"] ∧
      x.listening = [":" ++ choosePort env.environ] ∧
      x.served.length = (env.net (":" ++ choosePort env.environ)).1.length ∧
      main env =
        match (env.net (":" ++ choosePort env.environ)).2 with
        | some err => x.Fatal err
        | none => x := by
  refine ⟨(ListenAndServe env (Globals.ofFlags f c)
    (((if Getenv env.environ "PORT" = "" then
        ((World.start env.svc).HandleFunc "/").Printf
          ("Defaulting to port " ++ choosePort env.environ)
      else (World.start env.svc).HandleFunc "/")).Printf
        ("Listening on port " ++ choosePort env.environ))
    (":" ++ choosePort env.environ)).1, ?_, ?_, ?_, ?_, ?_⟩
  · simp only [ListenAndServe]
    rw [(serve_frame _ _ _ _ _).1]
    split <;> simp [World.Printf, World.HandleFunc, World.start]
  · simp only [ListenAndServe]
    rw [(serve_frame _ _ _ _ _).2.1]
    split <;> simp [World.Printf, World.HandleFunc, World.start]
  · simp only [ListenAndServe]
    rw [(serve_frame _ _ _ _ _).2.2.1]
    split <;> simp [World.Printf, World.HandleFunc, World.start]
  · simp only [ListenAndServe]
    rw [(serve_frame _ _ _ _ _).2.2.2]
    split <;> simp [World.Printf, World.HandleFunc, World.start]
  · simp only [main, hf, hc, ListenAndServe]
    rcases (env.net (":" ++ choosePort env.environ)).2 with _ | err <;> rfl

/-! ## The claims -/

/-- C1: for a request whose body decodes into an envelope, the handler submits a load
request if and only if the attribute `eventType` is exactly `"OBJECT_FINALIZE"`; for
every other value it performs no engine step at all, leaves the world as it was, and
responds 200. -/
theorem C1_load_iff_finalize {σ : Type} (u : Unmarshal) (eng : Engine σ) (g : Globals)
    (x : World σ) (w : ResponseWriter) (r : Request) (m : PubSubMessage)
    (hr : r.Body.err = none) (hd : u r.Body.data = (m, none)) :
    ((∃ l, Call.Run l ∈ performed x (PubSub u eng g x w r).1) ↔
        m.Message.Attributes.index "eventType" = "OBJECT_FINALIZE") ∧
    (m.Message.Attributes.index "eventType" ≠ "OBJECT_FINALIZE" →
        performed x (PubSub u eng g x w r).1 = [] ∧
        (PubSub u eng g x w r).1 = x ∧
        (PubSub u eng g x w r).2.codes = w.codes ++ [200] ∧
        (PubSub u eng g x w r).2.body = w.body) := by
  by_cases hev : m.Message.Attributes.index "eventType" = "OBJECT_FINALIZE"
  · refine ⟨⟨fun _ => hev, fun _ => ?_⟩, fun h => absurd hev h⟩
    rcases PubSub_finalize_cases u eng g x w r m hr hd hev with
      ⟨e, _, _, s, h⟩ | ⟨j, e, _, _, _, s, h⟩ | ⟨j, st, e, _, _, _, _, s, h⟩ |
      ⟨j, st, _, _, _, _, s, h⟩ <;>
    exact ⟨loaderOf g m, by rw [h, performed_after]; simp⟩
  · rw [PubSub_skip u eng g x w r m hr hd hev]
    refine ⟨⟨fun h => ?_, fun h => absurd h hev⟩, fun _ => ?_⟩
    · rw [performed_self] at h
      simp at h
    · simp [performed_self, ResponseWriter.WriteHeader, StatusOK]

/-- C2: for a decoded envelope whose `eventType` is `"OBJECT_FINALIZE"`, the handler
hands the engine exactly one load request, whose only source URI is
`"gs://" ++ bucketId ++ "/" ++ objectId`, the two values being read from the attributes
as they are; a key that is absent, or a nil attributes map, reads as the empty string,
so an envelope with neither key yields `"gs:///"`. -/
theorem C2_source_reference {σ : Type} (u : Unmarshal) (eng : Engine σ) (g : Globals)
    (x : World σ) (w : ResponseWriter) (r : Request) (m : PubSubMessage)
    (hr : r.Body.err = none) (hd : u r.Body.data = (m, none))
    (hev : m.Message.Attributes.index "eventType" = "OBJECT_FINALIZE") :
    (submissions (performed x (PubSub u eng g x w r).1)).map (fun l => l.Src.URIs) =
      [["gs://" ++ m.Message.Attributes.index "bucketId" ++ "/" ++
        m.Message.Attributes.index "objectId"]] ∧
    (∀ k kvs v, m.Message.Attributes = some kvs → kvs.lookup k = some v →
      m.Message.Attributes.index k = v) ∧
    (∀ k kvs, m.Message.Attributes = some kvs → (∀ v, (k, v) ∉ kvs) →
      m.Message.Attributes.index k = "") ∧
    (∀ k, m.Message.Attributes = none → m.Message.Attributes.index k = "") ∧
    ((∀ kvs v, m.Message.Attributes = some kvs →
        ("bucketId", v) ∉ kvs ∧ ("objectId", v) ∉ kvs) →
      (submissions (performed x (PubSub u eng g x w r).1)).map (fun l => l.Src.URIs) =
        [["gs:///"]]) := by
  have habs : ∀ k kvs, m.Message.Attributes = some kvs → (∀ v, (k, v) ∉ kvs) →
      m.Message.Attributes.index k = "" := by
    intro k kvs hk hno
    have hnone : kvs.lookup k = none := lookup_absent k kvs hno
    simp [StringMap.index, hk, hnone]
  have huri : (submissions (performed x (PubSub u eng g x w r).1)).map
      (fun l => l.Src.URIs) =
      [["gs://" ++ m.Message.Attributes.index "bucketId" ++ "/" ++
        m.Message.Attributes.index "objectId"]] := by
    rcases PubSub_finalize_cases u eng g x w r m hr hd hev with
      ⟨e, _, _, s, h⟩ | ⟨j, e, _, _, _, s, h⟩ | ⟨j, st, e, _, _, _, _, s, h⟩ |
      ⟨j, st, _, _, _, _, s, h⟩ <;>
    · rw [h, performed_after]
      simp [submissions, loaderOf, newLoader, NewGCSReference, Table.LoaderFrom]
  refine ⟨huri, ?_, habs, ?_, ?_⟩
  · intro k kvs v hk hv
    simp [StringMap.index, hk, hv]
  · intro k hk
    simp [StringMap.index, hk]
  · intro hno
    have hb : m.Message.Attributes.index "bucketId" = "" := by
      rcases hk : m.Message.Attributes with _ | kvs
      · simp [StringMap.index]
      · rw [← hk]
        exact habs _ kvs hk (fun v => (hno kvs v hk).1)
    have ho : m.Message.Attributes.index "objectId" = "" := by
      rcases hk : m.Message.Attributes with _ | kvs
      · simp [StringMap.index]
      · rw [← hk]
        exact habs _ kvs hk (fun v => (hno kvs v hk).2)
    rw [huri, hb, ho]
    decide

/-- C3: when the body cannot be read, or cannot be decoded into the envelope, the
handler responds 400 and performs no engine step, whatever the decoder left in the
envelope (attributes naming `OBJECT_FINALIZE` included). -/
theorem C3_bad_request {σ : Type} (u : Unmarshal) (eng : Engine σ) (g : Globals)
    (x : World σ) (w : ResponseWriter) (r : Request)
    (h : r.Body.err ≠ none ∨ (u r.Body.data).2 ≠ none) :
    (PubSub u eng g x w r).2.codes = w.codes ++ [400] ∧
    performed x (PubSub u eng g x w r).1 = [] ∧
    (PubSub u eng g x w r).1.calls = x.calls ∧
    (PubSub u eng g x w r).1.svc = x.svc := by
  rcases hr : r.Body.err with _ | e
  · rcases hd : (u r.Body.data).2 with _ | e
    · simp [hr, hd] at h
    · rw [PubSub_decodeErr u eng g x w r e hr hd]
      simp [performed, World.Printf, httpError, ResponseWriter.Write,
        ResponseWriter.WriteHeader, ResponseWriter.Set, StatusBadRequest]
  · rw [PubSub_readErr u eng g x w r e hr]
    simp [performed, World.Printf, httpError, ResponseWriter.Write,
      ResponseWriter.WriteHeader, ResponseWriter.Set, StatusBadRequest]

/-- C4: for a finalize envelope and any engine: a failed submission gives 500 with the
submission as the only engine step; a failed wait gives 500 with submission and wait as
the only steps; a terminal status carrying an error gives 500 after submission, wait and
status; and in every run the kinds of step performed form a prefix of
(submit, wait, status), so none is repeated and none follows a failure. -/
theorem C4_failure_stops {σ : Type} (u : Unmarshal) (eng : Engine σ) (g : Globals)
    (x : World σ) (w : ResponseWriter) (r : Request) (m : PubSubMessage)
    (hr : r.Body.err = none) (hd : u r.Body.data = (m, none))
    (hev : m.Message.Attributes.index "eventType" = "OBJECT_FINALIZE") :
    (∀ e, (eng.Run x.svc (loaderOf g m)).2 = .error e →
      performed x (PubSub u eng g x w r).1 = [Call.Run (loaderOf g m)] ∧
      (PubSub u eng g x w r).2.codes = w.codes ++ [500]) ∧
    (∀ j e, (eng.Run x.svc (loaderOf g m)).2 = .ok j →
      (eng.Wait (eng.Run x.svc (loaderOf g m)).1 j).2 = .error e →
      performed x (PubSub u eng g x w r).1 = [Call.Run (loaderOf g m), Call.Wait j] ∧
      (PubSub u eng g x w r).2.codes = w.codes ++ [500]) ∧
    (∀ j st e, (eng.Run x.svc (loaderOf g m)).2 = .ok j →
      (eng.Wait (eng.Run x.svc (loaderOf g m)).1 j).2 = .ok st → st.Err = some e →
      performed x (PubSub u eng g x w r).1 =
        [Call.Run (loaderOf g m), Call.Wait j, Call.Status st] ∧
      (PubSub u eng g x w r).2.codes = w.codes ++ [500]) ∧
    (performed x (PubSub u eng g x w r).1).map Call.kind <+:
      [Step.submit, Step.wait, Step.status] := by
  rcases PubSub_finalize_cases u eng g x w r m hr hd hev with
    ⟨e0, a1, _, s, h⟩ | ⟨j0, e0, a1, a2, _, s, h⟩ | ⟨j0, st0, e0, a1, a2, a3, _, s, h⟩ |
    ⟨j0, st0, a1, a2, a3, _, s, h⟩
  · rw [h]
    simp only [performed_after]
    refine ⟨fun e _ => ?_, fun j e h1 => ?_, fun j st e h1 => ?_, ?_⟩
    · simp [ResponseWriter.WriteHeader, StatusInternalServerError]
    · simp [a1] at h1
    · simp [a1] at h1
    · exact ⟨[Step.wait, Step.status], rfl⟩
  · rw [h]
    simp only [performed_after]
    refine ⟨fun e h1 => ?_, fun j e h1 h2 => ?_, fun j st e h1 h2 => ?_, ?_⟩
    · simp [a1] at h1
    · rw [a1] at h1
      cases h1
      simp [ResponseWriter.WriteHeader, StatusInternalServerError]
    · rw [a1] at h1
      cases h1
      simp [a2] at h2
    · exact ⟨[Step.status], rfl⟩
  · rw [h]
    simp only [performed_after]
    refine ⟨fun e h1 => ?_, fun j e h1 h2 => ?_, fun j st e h1 h2 _ => ?_, ?_⟩
    · simp [a1] at h1
    · rw [a1] at h1
      cases h1
      simp [a2] at h2
    · rw [a1] at h1
      cases h1
      rw [a2] at h2
      cases h2
      simp [ResponseWriter.WriteHeader, StatusInternalServerError]
    · exact ⟨[], rfl⟩
  · rw [h]
    simp only [performed_after]
    refine ⟨fun e h1 => ?_, fun j e h1 h2 => ?_, fun j st e h1 h2 h3 => ?_, ?_⟩
    · simp [a1] at h1
    · rw [a1] at h1
      cases h1
      simp [a2] at h2
    · rw [a1] at h1
      cases h1
      rw [a2] at h2
      cases h2
      simp [JobStatus.Err, a3] at h3
    · exact ⟨[], rfl⟩

/-- C5: every run of the handler writes exactly one status code, one of 200, 400 and
500: 400 exactly when reading or decoding the body fails; 500 exactly when the envelope
decodes, its `eventType` is `"OBJECT_FINALIZE"` and submission, wait or the terminal
status reports an error; 200 otherwise, and then nothing is written to the body or the
header. -/
theorem C5_one_status_code {σ : Type} (u : Unmarshal) (eng : Engine σ) (g : Globals)
    (x : World σ) (w : ResponseWriter) (r : Request) :
    ∃ c, (PubSub u eng g x w r).2.codes = w.codes ++ [c] ∧
      (c = 200 ∨ c = 400 ∨ c = 500) ∧
      (c = 400 ↔ (r.Body.err ≠ none ∨ (u r.Body.data).2 ≠ none)) ∧
      (c = 500 ↔ (r.Body.err = none ∧ (u r.Body.data).2 = none ∧
        (u r.Body.data).1.Message.Attributes.index "eventType" = "OBJECT_FINALIZE" ∧
        loadFails eng x.svc (loaderOf g (u r.Body.data).1) = true)) ∧
      (c = 200 → (PubSub u eng g x w r).2.body = w.body ∧
        (PubSub u eng g x w r).2.header = w.header) := by
  rcases PubSub_summary u eng g x w r with
    ⟨hbad, tag, e, _, h⟩ | ⟨h1, h2, hev, _, h⟩ | ⟨h1, h2, hev, tag, e, s, cs, hl, _, h⟩ |
    ⟨h1, h2, hev, hl, _, s, cs, h⟩
  · refine ⟨400, ?_, by simp, by simpa using hbad, ?_, by simp⟩
    · simp [h, httpError, ResponseWriter.Write, ResponseWriter.WriteHeader,
        ResponseWriter.Set, StatusBadRequest]
    · simp only [show (400 : Nat) = 500 ↔ False by decide, false_iff]
      rintro ⟨a, b, _⟩
      rcases hbad with hb | hb
      · exact hb a
      · exact hb b
  · refine ⟨200, ?_, by simp, ?_, ?_, ?_⟩
    · simp [h, ResponseWriter.WriteHeader, StatusOK]
    · simp [h1, h2]
    · simp [hev]
    · simp [h, ResponseWriter.WriteHeader]
  · refine ⟨500, ?_, by simp, ?_, ?_, by simp⟩
    · simp [h, ResponseWriter.WriteHeader, StatusInternalServerError]
    · simp [h1, h2]
    · simp [h1, h2, hev, loadFails, hl]
  · refine ⟨200, ?_, by simp, ?_, ?_, ?_⟩
    · simp [h, ResponseWriter.WriteHeader, StatusOK]
    · simp [h1, h2]
    · simp [loadFails, hl]
    · simp [h, ResponseWriter.WriteHeader]

/-- C6: for a finalize envelope, with the globals as `main` sets them from the flags and
a client constructed for the flag `project`, the handler submits exactly one load
request: destination table `(project, dataset, table)` of the flags, source format
newline-delimited JSON, schema update options exactly `ALLOW_FIELD_ADDITION` and
`ALLOW_FIELD_RELAXATION`, write disposition append, which is neither truncate nor
write-if-empty; only the source URI depends on the envelope. -/
theorem C6_load_options {σ : Type} (u : Unmarshal) (eng : Engine σ) (x : World σ)
    (w : ResponseWriter) (r : Request) (m : PubSubMessage) (f : Flags) (client : Client)
    (dial : String → Option Error) (hc : NewClient dial f.project = .ok client)
    (hr : r.Body.err = none) (hd : u r.Body.data = (m, none))
    (hev : m.Message.Attributes.index "eventType" = "OBJECT_FINALIZE") :
    submissions (performed x (PubSub u eng (Globals.ofFlags f client) x w r).1) =
      [{ Src :=
           { URIs := ["gs://" ++ m.Message.Attributes.index "bucketId" ++ "/" ++
               m.Message.Attributes.index "objectId"]
             SourceFormat := "NEWLINE_DELIMITED_JSON" }
         Dst := { ProjectID := f.project, DatasetID := f.dataset, TableID := f.table }
         SchemaUpdateOptions := ["ALLOW_FIELD_ADDITION", "ALLOW_FIELD_RELAXATION"]
         WriteDisposition := WriteAppend }] ∧
    WriteAppend ≠ WriteTruncate ∧ WriteAppend ≠ WriteEmpty := by
  have hp : client.projectID = f.project := by
    unfold NewClient at hc
    split at hc
    · cases hc
    · cases hc
      rfl
  refine ⟨?_, by decide, by decide⟩
  rcases PubSub_finalize_cases u eng (Globals.ofFlags f client) x w r m hr hd hev with
    ⟨e, _, _, s, h⟩ | ⟨j, e, _, _, _, s, h⟩ | ⟨j, st, e, _, _, _, _, s, h⟩ |
    ⟨j, st, _, _, _, _, s, h⟩ <;>
  · rw [h, performed_after]
    simp [submissions, loaderOf, newLoader, NewGCSReference, Table.LoaderFrom,
      Dataset.Table, Client.Dataset, Globals.ofFlags, hp, JSON]

/-- C7: the handler does not deduplicate. Against an engine that accepts every load,
handling the same finalize notification twice in sequence yields two submissions of the
same load request and two responses 200; and from any world whatever, the same
notification is answered 200 with that one submission, so the second handling does not
depend on the first. -/
theorem C7_no_dedup {σ : Type} (u : Unmarshal) (eng : Engine σ) (g : Globals)
    (x : World σ) (w : ResponseWriter) (r : Request) (m : PubSubMessage)
    (hr : r.Body.err = none) (hd : u r.Body.data = (m, none))
    (hev : m.Message.Attributes.index "eventType" = "OBJECT_FINALIZE")
    (hrun : ∀ s l, ∃ j, (eng.Run s l).2 = .ok j)
    (hwait : ∀ s j, ∃ st, (eng.Wait s j).2 = .ok st ∧ st.err = none) :
    submissions (performed x (PubSub u eng g (PubSub u eng g x w r).1 w r).1) =
      [loaderOf g m, loaderOf g m] ∧
    (PubSub u eng g x w r).2 = w.WriteHeader 200 ∧
    (PubSub u eng g (PubSub u eng g x w r).1 w r).2 = w.WriteHeader 200 ∧
    (∀ y : World σ, (PubSub u eng g y w r).2 = w.WriteHeader 200 ∧
      submissions (performed y (PubSub u eng g y w r).1) = [loaderOf g m]) := by
  have hall := PubSub_accepted u eng g w r m hr hd hev hrun hwait
  obtain ⟨j1, st1, s1, h1⟩ := hall x
  obtain ⟨j2, st2, s2, h2⟩ := hall (PubSub u eng g x w r).1
  refine ⟨?_, by rw [h1]; rfl, by rw [h2]; rfl, fun y => ?_⟩
  · rw [h2, h1]
    simp [performed, World.after, submissions]
  · obtain ⟨j, st, s, h⟩ := hall y
    rw [h]
    exact ⟨rfl, by simp [performed_after, submissions]⟩

/-- C8: a failure reaches the caller as its status code and nothing else. Two failing
runs of the handler that end with the same status code, whatever their requests,
decoders, engines and error values, write the same response (header, status, body); the
body is the fixed text of `http.Error` for 400 and empty for 500; the error value goes
to the log, as one line. -/
theorem C8_failures_indistinguishable {σ τ : Type} (u1 u2 : Unmarshal) (eng1 : Engine σ)
    (eng2 : Engine τ) (g1 g2 : Globals) (x1 : World σ) (x2 : World τ) (w : ResponseWriter)
    (r1 r2 : Request) (c : Nat) (hc : c ≠ 200)
    (h1 : (PubSub u1 eng1 g1 x1 w r1).2.codes = w.codes ++ [c])
    (h2 : (PubSub u2 eng2 g2 x2 w r2).2.codes = w.codes ++ [c]) :
    (PubSub u1 eng1 g1 x1 w r1).2 = (PubSub u2 eng2 g2 x2 w r2).2 ∧
    (PubSub u1 eng1 g1 x1 w r1).2.body =
      w.body ++ (if c = 400 then "Bad Request\n" else "") ∧
    (∃ tag e, failureOf u1 eng1 g1 x1 r1 = some (tag, e) ∧
      (PubSub u1 eng1 g1 x1 w r1).1.log = x1.log ++ [tag ++ ": " ++ e]) ∧
    (∃ tag e, failureOf u2 eng2 g2 x2 r2 = some (tag, e) ∧
      (PubSub u2 eng2 g2 x2 w r2).1.log = x2.log ++ [tag ++ ": " ++ e]) := by
  obtain ⟨e1, l1⟩ := response_of_code u1 eng1 g1 x1 w r1 c hc h1
  obtain ⟨e2, l2⟩ := response_of_code u2 eng2 g2 x2 w r2 c hc h2
  refine ⟨by rw [e1, e2], ?_, l1, l2⟩
  rw [e1]
  by_cases h : c = 400
  · simp [h, httpError, ResponseWriter.Write, ResponseWriter.WriteHeader, ResponseWriter.Set]
  · simp [h, ResponseWriter.WriteHeader]

/-- C9, as the specification states it, fails: in this run the client is constructed,
the handler is registered, and the program still ends the process itself with status 1,
because `http.ListenAndServe` returns an error. -/
theorem C9_counterexample :
    NewClient bindFailsEnv.dial "proj" = .ok { projectID := "proj" } ∧
    (main bindFailsEnv).exit = some 1 ∧
    (main bindFailsEnv).handlers = ["/"] ∧
    (main bindFailsEnv).log =
      ["Defaulting to port 8080", "Listening on port 8080",
        "listen tcp :8080: bind: address already in use"] :=
  ⟨rfl, by decide, by decide, by decide⟩

/-- C9, amended: the program ends the process itself in exactly three situations: the
command line is rejected by `flag.Parse`, client construction fails, or
`http.ListenAndServe` returns an error. When `flag.Parse` rejects the command line,
the process ends with the status package `flag` chooses and nothing else has happened:
nothing logged, no handler registered, no address listened on, no request served, no
engine step performed. When client construction fails, the exit status is 1, the error
is the only line logged, and no handler has been registered, no address listened on, no
request served and no engine step performed. When `ListenAndServe` returns an error the
exit status is 1 and the handler had been registered. No run of `PubSub` changes the
exit status. -/
theorem C9_exit_points {σ : Type} (env : Env σ) :
    ((main env).exit ≠ none ↔
      ((∃ code, env.flags = .error code) ∨
       (∃ f e, env.flags = .ok f ∧ NewClient env.dial f.project = .error e) ∨
       (∃ f c e, env.flags = .ok f ∧ NewClient env.dial f.project = .ok c ∧
          (env.net (":" ++ choosePort env.environ)).2 = some e))) ∧
    (∀ code, env.flags = .error code →
      (main env).exit = some code ∧ (main env).log = [] ∧ (main env).handlers = [] ∧
      (main env).listening = [] ∧ (main env).served = [] ∧ (main env).calls = []) ∧
    (∀ f e, env.flags = .ok f → NewClient env.dial f.project = .error e →
      (main env).exit = some 1 ∧ (main env).log = [e] ∧ (main env).handlers = [] ∧
      (main env).listening = [] ∧ (main env).served = [] ∧ (main env).calls = []) ∧
    (∀ f c e, env.flags = .ok f → NewClient env.dial f.project = .ok c →
      (env.net (":" ++ choosePort env.environ)).2 = some e →
      (main env).exit = some 1 ∧ (main env).handlers = ["/"] ∧
      (main env).listening = [":" ++ choosePort env.environ]) ∧
    (∀ (u : Unmarshal) (eng : Engine σ) (g : Globals) (x : World σ) (w : ResponseWriter)
      (r : Request), (PubSub u eng g x w r).1.exit = x.exit) := by
  refine ⟨?_, ?_, ?_, ?_, ?_⟩
  · rcases hf : env.flags with code | f
    · rw [main_flagErr env code hf]
      simp
    · rcases hc : NewClient env.dial f.project with e | c
      · rw [main_clientErr env f e hf hc]
        simp [World.Fatal, hc]
      · obtain ⟨y, hy, _, _, _, hm⟩ := main_serving env f c hf hc
        rw [hm]
        rcases hn : (env.net (":" ++ choosePort env.environ)).2 with _ | err
        · simp [hy, hc]
        · simp [World.Fatal, hc]
  · intro code hf
    rw [main_flagErr env code hf]
    simp [World.start]
  · intro f e hf hc
    rw [main_clientErr env f e hf hc]
    simp [World.Fatal, World.start]
  · intro f c e hf hc hn
    obtain ⟨y, _, hh, hl, _, hm⟩ := main_serving env f c hf hc
    rw [hm, hn]
    simp [World.Fatal, hh, hl]
  · intro u eng g x w r
    obtain ⟨s, cs, ls, h⟩ := PubSub_frame u eng g x w r
    rw [h]
    rfl

/-- C10: once flags are parsed and the client is constructed, `main` listens on exactly
one address, `":" ++ port`, where `port` is the value of `PORT` when the variable is set
and not empty, taken as it is, and `"8080"` when it is unset or empty. -/
theorem C10_listen_address {σ : Type} (env : Env σ) (f : Flags) (c : Client)
    (hf : env.flags = .ok f) (hc : NewClient env.dial f.project = .ok c) :
    (main env).listening =
      [":" ++ (match env.environ.lookup "PORT" with
        | some v => if v = "" then "8080" else v
        | none => "8080")] := by
  obtain ⟨y, _, _, hl, _, hm⟩ := main_serving env f c hf hc
  have hport : choosePort env.environ =
      (match env.environ.lookup "PORT" with
        | some v => if v = "" then "8080" else v
        | none => "8080") := by
    unfold choosePort Getenv
    rcases env.environ.lookup "PORT" with _ | v <;> simp
  rw [hm, ← hport]
  rcases (env.net (":" ++ choosePort env.environ)).2 with _ | err
  · exact hl
  · simpa [World.Fatal] using hl

/-! ## The claims at concrete inputs -/

/-- C1 at a delete notification: no engine step, response 200. -/
theorem C1_load_iff_finalize_witness :
    (requestOf deleteBody).Body.err = none ∧
    sampleUnmarshal (requestOf deleteBody).Body.data = (deleteEnvelope, none) ∧
    deleteEnvelope.Message.Attributes.index "eventType" ≠ "OBJECT_FINALIZE" ∧
    performed (World.start 0) (PubSub sampleUnmarshal acceptingEngine sampleGlobals
      (World.start 0) ResponseWriter.fresh (requestOf deleteBody)).1 = [] ∧
    (PubSub sampleUnmarshal acceptingEngine sampleGlobals
      (World.start 0) ResponseWriter.fresh (requestOf deleteBody)).2.codes = [200] :=
  ⟨by decide, by decide, by decide,
    ((C1_load_iff_finalize sampleUnmarshal acceptingEngine sampleGlobals (World.start 0)
      ResponseWriter.fresh (requestOf deleteBody) deleteEnvelope (by decide) (by decide)).2
      (by decide)).1,
    ((C1_load_iff_finalize sampleUnmarshal acceptingEngine sampleGlobals (World.start 0)
      ResponseWriter.fresh (requestOf deleteBody) deleteEnvelope (by decide) (by decide)).2
      (by decide)).2.2.1⟩

/-- C2 at the finalize notification for `o.json` in bucket `b`, and at one that names
neither bucket nor object. -/
theorem C2_source_reference_witness :
    ((requestOf finalizeBody).Body.err = none ∧
      sampleUnmarshal (requestOf finalizeBody).Body.data = (finalizeEnvelope, none) ∧
      finalizeEnvelope.Message.Attributes.index "eventType" = "OBJECT_FINALIZE" ∧
      (submissions (performed (World.start 0) (PubSub sampleUnmarshal acceptingEngine
        sampleGlobals (World.start 0) ResponseWriter.fresh (requestOf finalizeBody)).1)).map
          (fun l => l.Src.URIs) = [["gs://b/o.json"]]) ∧
    ((requestOf bareBody).Body.err = none ∧
      sampleUnmarshal (requestOf bareBody).Body.data = (bareEnvelope, none) ∧
      bareEnvelope.Message.Attributes.index "eventType" = "OBJECT_FINALIZE" ∧
      (submissions (performed (World.start 0) (PubSub sampleUnmarshal acceptingEngine
        sampleGlobals (World.start 0) ResponseWriter.fresh (requestOf bareBody)).1)).map
          (fun l => l.Src.URIs) = [["gs:///"]]) :=
  ⟨⟨by decide, by decide, by decide,
    (C2_source_reference sampleUnmarshal acceptingEngine sampleGlobals (World.start 0)
      ResponseWriter.fresh (requestOf finalizeBody) finalizeEnvelope (by decide) (by decide)
      (by decide)).1.trans (by decide)⟩,
   ⟨by decide, by decide, by decide,
    (C2_source_reference sampleUnmarshal acceptingEngine sampleGlobals (World.start 0)
      ResponseWriter.fresh (requestOf bareBody) bareEnvelope (by decide) (by decide)
      (by decide)).2.2.2.2 (fun kvs v h => by
        have hk : kvs = [("eventType", "OBJECT_FINALIZE")] := (Option.some.inj h).symm
        subst hk
        constructor <;> simp)⟩⟩

/-- C3 at a body whose `data` is not base64 and whose attributes name
`OBJECT_FINALIZE`. -/
theorem C3_bad_request_witness :
    ((requestOf badDataBody).Body.err ≠ none ∨
      (sampleUnmarshal (requestOf badDataBody).Body.data).2 ≠ none) ∧
    (sampleUnmarshal badDataBody).1.Message.Attributes.index "eventType" =
      "OBJECT_FINALIZE" ∧
    (PubSub sampleUnmarshal acceptingEngine sampleGlobals (World.start 0)
      ResponseWriter.fresh (requestOf badDataBody)).2.codes = [400] ∧
    performed (World.start 0) (PubSub sampleUnmarshal acceptingEngine sampleGlobals
      (World.start 0) ResponseWriter.fresh (requestOf badDataBody)).1 = [] :=
  ⟨by decide, by decide,
    (C3_bad_request sampleUnmarshal acceptingEngine sampleGlobals (World.start 0)
      ResponseWriter.fresh (requestOf badDataBody) (by decide)).1,
    (C3_bad_request sampleUnmarshal acceptingEngine sampleGlobals (World.start 0)
      ResponseWriter.fresh (requestOf badDataBody) (by decide)).2.1⟩

/-- C4 at a load whose job ends with an error. -/
theorem C4_failure_stops_witness :
    (requestOf finalizeBody).Body.err = none ∧
    sampleUnmarshal (requestOf finalizeBody).Body.data = (finalizeEnvelope, none) ∧
    finalizeEnvelope.Message.Attributes.index "eventType" = "OBJECT_FINALIZE" ∧
    performed (World.start (0, [Script.mk none none (some "bad record")]))
      (PubSub sampleUnmarshal sampleEngine sampleGlobals
        (World.start (0, [Script.mk none none (some "bad record")])) ResponseWriter.fresh
        (requestOf finalizeBody)).1 =
      [Call.Run (loaderOf sampleGlobals finalizeEnvelope), Call.Wait { jobID := "0" },
        Call.Status { err := some "bad record" }] ∧
    (PubSub sampleUnmarshal sampleEngine sampleGlobals
      (World.start (0, [Script.mk none none (some "bad record")])) ResponseWriter.fresh
      (requestOf finalizeBody)).2.codes = [500] :=
  ⟨by decide, by decide, by decide,
    (C4_failure_stops sampleUnmarshal sampleEngine sampleGlobals
      (World.start (0, [Script.mk none none (some "bad record")])) ResponseWriter.fresh
      (requestOf finalizeBody) finalizeEnvelope (by decide) (by decide) (by decide)).2.2.1
      { jobID := "0" } { err := some "bad record" } "bad record" rfl rfl rfl⟩

/-- C5 at a load whose submission is refused: the one status code is 500. -/
theorem C5_one_status_code_witness :
    ∃ c, (PubSub sampleUnmarshal sampleEngine sampleGlobals
        (World.start (0, [Script.mk (some "access denied") none none]))
        ResponseWriter.fresh (requestOf finalizeBody)).2.codes = [c] ∧
      (c = 200 ∨ c = 400 ∨ c = 500) :=
  (C5_one_status_code sampleUnmarshal sampleEngine sampleGlobals
    (World.start (0, [Script.mk (some "access denied") none none]))
    ResponseWriter.fresh (requestOf finalizeBody)).imp (fun _ h => ⟨h.1, h.2.1⟩)

/-- C6 at destination `(proj, ds, tbl)`. -/
theorem C6_load_options_witness :
    NewClient (fun _ => none) "proj" = .ok { projectID := "proj" } ∧
    (requestOf finalizeBody).Body.err = none ∧
    sampleUnmarshal (requestOf finalizeBody).Body.data = (finalizeEnvelope, none) ∧
    finalizeEnvelope.Message.Attributes.index "eventType" = "OBJECT_FINALIZE" ∧
    submissions (performed (World.start 0) (PubSub sampleUnmarshal acceptingEngine
      (Globals.ofFlags { project := "proj", dataset := "ds", table := "tbl" }
        { projectID := "proj" })
      (World.start 0) ResponseWriter.fresh (requestOf finalizeBody)).1) =
      [{ Src := { URIs := ["gs://b/o.json"], SourceFormat := "NEWLINE_DELIMITED_JSON" }
         Dst := { ProjectID := "proj", DatasetID := "ds", TableID := "tbl" }
         SchemaUpdateOptions := ["ALLOW_FIELD_ADDITION", "ALLOW_FIELD_RELAXATION"]
         WriteDisposition := "WRITE_APPEND" }] :=
  ⟨rfl, by decide, by decide, by decide,
    (C6_load_options sampleUnmarshal acceptingEngine (World.start 0) ResponseWriter.fresh
      (requestOf finalizeBody) finalizeEnvelope
      { project := "proj", dataset := "ds", table := "tbl" } { projectID := "proj" }
      (fun _ => none) rfl (by decide) (by decide) (by decide)).1.trans (by decide)⟩

/-- C7 at the sample finalize notification, handled twice. -/
theorem C7_no_dedup_witness :
    (requestOf finalizeBody).Body.err = none ∧
    sampleUnmarshal (requestOf finalizeBody).Body.data = (finalizeEnvelope, none) ∧
    finalizeEnvelope.Message.Attributes.index "eventType" = "OBJECT_FINALIZE" ∧
    (∀ s l, ∃ j, (acceptingEngine.Run s l).2 = .ok j) ∧
    (∀ s j, ∃ st, (acceptingEngine.Wait s j).2 = .ok st ∧ st.err = none) ∧
    submissions (performed (World.start 0) (PubSub sampleUnmarshal acceptingEngine
      sampleGlobals (PubSub sampleUnmarshal acceptingEngine sampleGlobals (World.start 0)
        ResponseWriter.fresh (requestOf finalizeBody)).1
      ResponseWriter.fresh (requestOf finalizeBody)).1) =
      [loaderOf sampleGlobals finalizeEnvelope, loaderOf sampleGlobals finalizeEnvelope] :=
  ⟨by decide, by decide, by decide, fun _ _ => ⟨_, rfl⟩, fun _ _ => ⟨_, rfl, rfl⟩,
    (C7_no_dedup sampleUnmarshal acceptingEngine sampleGlobals (World.start 0)
      ResponseWriter.fresh (requestOf finalizeBody) finalizeEnvelope (by decide) (by decide)
      (by decide) (fun _ _ => ⟨_, rfl⟩) (fun _ _ => ⟨_, rfl, rfl⟩)).1⟩

/-- C8 at a refused submission and a failed job: the same response. -/
theorem C8_failures_indistinguishable_witness :
    (500 : Nat) ≠ 200 ∧
    (PubSub sampleUnmarshal sampleEngine sampleGlobals
      (World.start (0, [Script.mk (some "access denied") none none]))
      ResponseWriter.fresh (requestOf finalizeBody)).2.codes =
        ResponseWriter.fresh.codes ++ [500] ∧
    (PubSub sampleUnmarshal sampleEngine sampleGlobals
      (World.start (0, [Script.mk none none (some "bad record")]))
      ResponseWriter.fresh (requestOf finalizeBody)).2.codes =
        ResponseWriter.fresh.codes ++ [500] ∧
    (PubSub sampleUnmarshal sampleEngine sampleGlobals
      (World.start (0, [Script.mk (some "access denied") none none]))
      ResponseWriter.fresh (requestOf finalizeBody)).2 =
    (PubSub sampleUnmarshal sampleEngine sampleGlobals
      (World.start (0, [Script.mk none none (some "bad record")]))
      ResponseWriter.fresh (requestOf finalizeBody)).2 :=
  ⟨by decide, by decide, by decide,
    (C8_failures_indistinguishable sampleUnmarshal sampleUnmarshal sampleEngine sampleEngine
      sampleGlobals sampleGlobals
      (World.start (0, [Script.mk (some "access denied") none none]))
      (World.start (0, [Script.mk none none (some "bad record")]))
      ResponseWriter.fresh (requestOf finalizeBody) (requestOf finalizeBody) 500
      (by decide) (by decide) (by decide)).1⟩

/-- C9, amended, at a run whose command line is rejected and at a run in which no
client can be constructed. -/
theorem C9_exit_points_witness :
    (badFlagsEnv.flags = .error 2 ∧
      (main badFlagsEnv).exit = some 2 ∧ (main badFlagsEnv).log = [] ∧
      (main badFlagsEnv).handlers = [] ∧ (main badFlagsEnv).listening = [] ∧
      (main badFlagsEnv).served = [] ∧ (main badFlagsEnv).calls = []) ∧
    (noClientEnv.flags = .ok { project := "proj", dataset := "ds", table := "tbl" } ∧
      NewClient noClientEnv.dial "proj" =
        .error "bigquery: constructing client: could not find default credentials" ∧
      (main noClientEnv).exit = some 1 ∧
      (main noClientEnv).log =
        ["bigquery: constructing client: could not find default credentials"] ∧
      (main noClientEnv).handlers = [] ∧ (main noClientEnv).listening = [] ∧
      (main noClientEnv).served = [] ∧ (main noClientEnv).calls = []) :=
  ⟨⟨rfl, (C9_exit_points badFlagsEnv).2.1 2 rfl⟩,
   ⟨rfl, rfl,
    (C9_exit_points noClientEnv).2.2.1 { project := "proj", dataset := "ds", table := "tbl" }
      "bigquery: constructing client: could not find default credentials" rfl rfl⟩⟩

/-- C10 at `PORT=9090`. -/
theorem C10_listen_address_witness :
    servingEnv.flags = .ok { project := "proj", dataset := "ds", table := "tbl" } ∧
    NewClient servingEnv.dial "proj" = .ok { projectID := "proj" } ∧
    (main servingEnv).listening = [":9090"] :=
  ⟨rfl, rfl,
    (C10_listen_address servingEnv { project := "proj", dataset := "ds", table := "tbl" }
      { projectID := "proj" } rfl rfl).trans (by decide)⟩

end Autoload
